import Mathlib

/-!
# Verification of the temporal-platform orchestration core

Shallow embedding of the data model and the operations of
`src/temporal_platform` (activities `data_processing.py`, `long_running.py`,
`notifications.py`, workflow `orchestration.py`, models `workflows.py`).

Conventions of the embedding:
* Python exceptions are modelled with `Except String _`; the error value is
  the message of the exception.  The structured formatting of the custom exception
  hierarchy (`[ERROR_CODE] msg | Caused by: ...` in `exceptions/core.py`) is
  elided: only the core message text is carried, since no verified property
  inspects the decoration.
* Wall-clock quantities (`processing_time_seconds`, timestamps, heartbeat
  bookkeeping) and logging calls are elided: they do not influence any of the
  verified control flow or counters.
* Nondeterminism of the environment (which item transform faults, which work
  unit batch raises, what each HTTP attempt returns) is supplied by explicit
  oracle parameters, so every run of an operation is a pure function of its
  input and the oracle.
-/

namespace TemporalPlatform

/-- Enum `ActivityStatus` from `models/workflows.py`. -/
inductive ActivityStatus where
  | pending
  | running
  | completed
  | failed
  | retrying
  | timeout
deriving DecidableEq, Repr

/-- Enum `WorkflowStatus` from `models/workflows.py`. -/
inductive WorkflowStatus where
  | pending
  | running
  | completed
  | failed
  | cancelled
  | timeout
deriving DecidableEq, Repr

/-- Record `DataItem` from `models/workflows.py` (fields relevant to processing;
`content_type`, `metadata`, `checksum` and timestamps are carried by no
verified property and are elided). -/
structure DataItem where
  id : String
  content : String
  sizeBytes : Nat
deriving DecidableEq, Repr

/-- Record `DataBatch` from `models/workflows.py` (processing mode and priority tags
are elided: the batch executors under verification receive the mode choice
through which executor is invoked). -/
structure DataBatch where
  id : String
  items : List DataItem
  batchSize : Nat
deriving DecidableEq, Repr

/-- The construction-time invariants pydantic enforces on `DataBatch`:
`min_items=1` on `items` and the `validate_batch_size` validator
(`batch_size` must match the number of items). -/
def DataBatch.Wf (b : DataBatch) : Prop :=
  b.batchSize = b.items.length ∧ b.items ≠ []

instance (b : DataBatch) : Decidable b.Wf := by
  unfold DataBatch.Wf; infer_instance

/-- Record `ProcessingResult` from `models/workflows.py` (timing, retry count and
output metadata elided: wall-clock / activity-context dependent). -/
structure ProcessingResult where
  itemId : String
  status : ActivityStatus
  processedContent : Option String
  errorMessage : Option String
deriving DecidableEq, Repr

/-- Record `BatchProcessingResult` from `models/workflows.py`
(`processing_time_seconds` elided). -/
structure BatchProcessingResult where
  batchId : String
  totalItems : Nat
  successfulItems : Nat
  failedItems : Nat
  itemResults : List ProcessingResult
deriving DecidableEq, Repr

/-- Environment oracle for one invocation of the per-item transform inside
`process_single_item`: the simulated work either succeeds, raises
`asyncio.TimeoutError`, or raises some other exception with a message. -/
inductive ItemOutcome where
  | ok
  | timeoutErr (msg : String)
  | otherErr (msg : String)
deriving DecidableEq, Repr

/-- Model of `process_single_item` (`activities/data_processing.py`, lines 26-137).
* success path: returns a `completed` `ProcessingResult` whose
  `processed_content` is the upper-cased item content;
* `except asyncio.TimeoutError`: returns a `timeout` `ProcessingResult`
  carrying a timed-out error message;
* `except Exception`: re-raises `DataProcessingError` with message
  `"Item processing failed: " + str(e)` (modelled as the `Except.error`
  value). -/
def processSingleItem (item : DataItem) (outcome : ItemOutcome) :
    Except String ProcessingResult :=
  match outcome with
  | .ok =>
      .ok { itemId := item.id
            status := .completed
            processedContent := some item.content.toUpper
            errorMessage := none }
  | .timeoutErr _ =>
      .ok { itemId := item.id
            status := .timeout
            processedContent := none
            errorMessage := some "Item processing timed out" }
  | .otherErr m =>
      .error ("Item processing failed: " ++ m)

/-- The failed `ProcessingResult` built by the `except Exception` handlers of
both batch executors (`data_processing.py`, lines 186-192 in
`process_batch_sequential` and lines 255-261 in `process_with_semaphore`;
both construct the same record: `status=FAILED`, `error_message=str(e)`). -/
def failedResultFor (itemId : String) (msg : String) : ProcessingResult :=
  { itemId := itemId
    status := .failed
    processedContent := none
    errorMessage := some msg }

/-- The per-iteration body of the `for` loop of `process_batch_sequential`
(`data_processing.py`, lines 163-194), threading the enumeration index into
the outcome oracle.  Each iteration appends exactly one result and increments
exactly one of the two counters; the returned triple is
(`item_results`, `successful_count`, `failed_count`). -/
def seqLoop (outcomes : Nat → ItemOutcome) :
    Nat → List DataItem → List ProcessingResult × Nat × Nat
  | _, [] => ([], 0, 0)
  | i, item :: rest =>
      let tail := seqLoop outcomes (i + 1) rest
      match processSingleItem item (outcomes i) with
      | .ok r =>
          if r.status = .completed then (r :: tail.1, tail.2.1 + 1, tail.2.2)
          else (r :: tail.1, tail.2.1, tail.2.2 + 1)
      | .error e => (failedResultFor item.id e :: tail.1, tail.2.1, tail.2.2 + 1)

/-- Model of `process_batch_sequential` (`data_processing.py`, lines 141-215). -/
def processBatchSequential (batch : DataBatch) (outcomes : Nat → ItemOutcome) :
    BatchProcessingResult :=
  let res := seqLoop outcomes 0 batch.items
  { batchId := batch.id
    totalItems := batch.batchSize
    successfulItems := res.2.1
    failedItems := res.2.2
    itemResults := res.1 }

/-- Model of `process_with_semaphore` inside `process_batch_parallel`
(`data_processing.py`, lines 242-261): calls `process_single_item` and
converts any exception into a failed `ProcessingResult`; it itself never
raises (it is a total function of the outcome). -/
def processWithSemaphore (item : DataItem) (outcome : ItemOutcome) :
    ProcessingResult :=
  match processSingleItem item outcome with
  | .ok r => r
  | .error e => failedResultFor item.id e

/-- The task list handed to `asyncio.gather`
(`data_processing.py`, line 264): one task per item, in input order, each
producing the `process_with_semaphore` result.  `gather` preserves the input
order of its awaitables, so the result list is index-aligned with `items`.
The value of each task is wrapped in `Except` because `gather(...,
return_exceptions=True)` may in general hand back exceptions. -/
def gatherTasks (outcomes : Nat → ItemOutcome) :
    Nat → List DataItem → List (Except String ProcessingResult)
  | _, [] => []
  | i, item :: rest =>
      .ok (processWithSemaphore item (outcomes i)) ::
        gatherTasks outcomes (i + 1) rest

/-- The reconciliation loop after `asyncio.gather`
(`data_processing.py`, lines 283-300): every task value that is an exception
is replaced by a failed `ProcessingResult` for the item at the same index. -/
def reconcileGather :
    List DataItem → List (Except String ProcessingResult) →
    List ProcessingResult
  | _, [] => []
  | [], _ :: _ => []
  | item :: items, t :: ts =>
      (match t with
       | .ok r => r
       | .error e => failedResultFor item.id e) :: reconcileGather items ts

/-- Model of `process_batch_parallel` (`data_processing.py`, lines 219-333).
`successful_count` counts `completed` results and
`failed_count = len(processed_results) - successful_count` (line 312). -/
def processBatchParallel (batch : DataBatch) (outcomes : Nat → ItemOutcome) :
    BatchProcessingResult :=
  let processedResults :=
    reconcileGather batch.items (gatherTasks outcomes 0 batch.items)
  let successfulCount :=
    processedResults.countP (fun r => r.status = ActivityStatus.completed)
  let failedCount := processedResults.length - successfulCount
  { batchId := batch.id
    totalItems := batch.batchSize
    successfulItems := successfulCount
    failedItems := failedCount
    itemResults := processedResults }

/-- Model of `BatchProcessingWorkflow.run` (`workflows/orchestration.py`, lines
434-511).  The chosen batch activity runs under the retry policy of the engine;
its overall outcome (a result, or a still-failing exception after retries)
is the `activityResult` parameter.  On an exception the child workflow
returns the degraded result of lines 504-511: zero successes, every item
counted failed, and an empty `item_results` list. -/
def batchWorkflowRun (batch : DataBatch)
    (activityResult : Except String BatchProcessingResult) :
    BatchProcessingResult :=
  match activityResult with
  | .ok r => r
  | .error _ =>
      { batchId := batch.id
        totalItems := batch.batchSize
        successfulItems := 0
        failedItems := batch.batchSize
        itemResults := [] }

/-- Record `WorkflowInput` from `models/workflows.py` (configuration map, timeout
and retry flag elided; `batches` has `min_items=1`). -/
structure WorkflowInput where
  datasetId : String
  batches : List DataBatch
  notificationWebhook : Option String
deriving Repr

/-- Record `WorkflowOutput` from `models/workflows.py`
(`processing_time_seconds` and `summary_statistics` elided). -/
structure WorkflowOutput where
  workflowId : String
  datasetId : String
  status : WorkflowStatus
  totalBatches : Nat
  successfulBatches : Nat
  failedBatches : Nat
  totalItems : Nat
  successfulItems : Nat
  failedItems : Nat
  batchResults : List BatchProcessingResult
  errorSummary : Option String
deriving Repr

/-- The aggregate statistics dictionary computed by
`validate_processing_results` (`data_processing.py`, lines 356-358),
restricted to the fields read by the success output of the orchestrator. -/
structure ValidationStats where
  totalItems : Nat
  successfulItems : Nat
  failedItems : Nat
deriving Repr

/-- Outcome of stages 1-6 of `DataProcessingOrchestrator.run`
(`orchestration.py`, lines 65-110): either every stage completed, yielding
the accumulated batch results and validation statistics, or some stage
raised an exception with message `errMsg` after `self._batch_results` had
accumulated `resultsSoFar`. -/
inductive StageOutcome where
  | success (batchResults : List BatchProcessingResult) (stats : ValidationStats)
  | failure (errMsg : String) (resultsSoFar : List BatchProcessingResult)

/-- Model of `DataProcessingOrchestrator._create_workflow_output`
(`orchestration.py`, lines 373-400). -/
def createWorkflowOutput (input : WorkflowInput) (workflowId : String)
    (batchResults : List BatchProcessingResult) (stats : ValidationStats) :
    WorkflowOutput :=
  { workflowId := workflowId
    datasetId := input.datasetId
    status := .completed
    totalBatches := batchResults.length
    successfulBatches :=
      batchResults.countP (fun r => r.successfulItems = r.totalItems)
    failedBatches :=
      batchResults.countP (fun r => r.successfulItems < r.totalItems)
    totalItems := stats.totalItems
    successfulItems := stats.successfulItems
    failedItems := stats.failedItems
    batchResults := batchResults
    errorSummary := none }

/-- Model of `DataProcessingOrchestrator._create_failed_workflow_output`
(`orchestration.py`, lines 402-424): status `failed`,
`successful_items=0`, item/batch totals recomputed from the input, and
`error_summary=str(e)`. -/
def createFailedWorkflowOutput (input : WorkflowInput) (workflowId : String)
    (batchResults : List BatchProcessingResult) (errMsg : String) :
    WorkflowOutput :=
  { workflowId := workflowId
    datasetId := input.datasetId
    status := .failed
    totalBatches := input.batches.length
    successfulBatches := 0
    failedBatches := input.batches.length
    totalItems := (input.batches.map (fun b => b.batchSize)).sum
    successfulItems := 0
    failedItems := (input.batches.map (fun b => b.batchSize)).sum
    batchResults := batchResults
    errorSummary := some errMsg }

/-- Model of `DataProcessingOrchestrator.run` (`orchestration.py`, lines 42-139):
the entire stage sequence sits in one `try`; `except Exception` sends a
best-effort failure notification (fire-and-forget, elided) and returns the
failed output.  The function is total: no exception escapes its boundary. -/
def orchestratorRun (input : WorkflowInput) (workflowId : String)
    (stages : StageOutcome) : WorkflowOutput :=
  match stages with
  | .success batchResults stats =>
      createWorkflowOutput input workflowId batchResults stats
  | .failure errMsg resultsSoFar =>
      createFailedWorkflowOutput input workflowId resultsSoFar errMsg

/-- Record `LongRunningOperationInput` from `models/workflows.py` (heartbeat and
progress-update flags/intervals elided: they gate only heartbeat emission
and history appending, both wall-clock driven). -/
structure LongRunningOperationInput where
  id : String
  operationType : String
  totalWorkUnits : Nat
  workUnitSize : Nat
deriving Repr

/-- Record `LongRunningOperationOutput` from `models/workflows.py` (timing,
throughput, final-result map and progress history elided). -/
structure LongRunningOperationOutput where
  operationId : String
  status : ActivityStatus
  totalWorkUnits : Nat
  completedWorkUnits : Nat
  failedWorkUnits : Nat
deriving Repr

/-- Definition `work_units_per_batch = min(operation_input.work_unit_size, 1000)`
(`activities/long_running.py`, line 62). -/
def workUnitsPerBatch (input : LongRunningOperationInput) : Nat :=
  min input.workUnitSize 1000

/-- Definition `total_batches = (total_work_units + work_units_per_batch - 1) //
work_units_per_batch` (`long_running.py`, line 63). -/
def totalBatches (input : LongRunningOperationInput) : Nat :=
  (input.totalWorkUnits + workUnitsPerBatch input - 1) / workUnitsPerBatch input

/-- Mutable counters of the batch loop of `process_large_dataset`. -/
structure LRState where
  completedUnits : Nat
  failedUnits : Nat
deriving DecidableEq, Repr

/-- One iteration of the batch loop (`long_running.py`, lines 73-107):
`units_in_batch = min(work_units_per_batch, total_work_units -
completed_units)`; a faulting `_process_work_unit_batch` adds the units of the batch to `failed_units`, otherwise they are added to `completed_units`.
The oracle `fails` says which batch indices raise. -/
def lrStep (input : LongRunningOperationInput) (fails : Nat → Bool)
    (st : LRState) (batchIdx : Nat) : LRState :=
  let unitsInBatch :=
    min (workUnitsPerBatch input) (input.totalWorkUnits - st.completedUnits)
  if fails batchIdx then
    { st with failedUnits := st.failedUnits + unitsInBatch }
  else
    { st with completedUnits := st.completedUnits + unitsInBatch }

/-- The whole batch loop of `process_large_dataset`: fold `lrStep` over the
batch indices `0, ..., total_batches - 1`. -/
def lrRun (input : LongRunningOperationInput) (fails : Nat → Bool) : LRState :=
  (List.range (totalBatches input)).foldl (lrStep input fails) ⟨0, 0⟩

/-- The final-status determination of `process_large_dataset`
(`long_running.py`, lines 179-185): `completed` when `failed_units == 0`,
`failed` when additionally `completed_units == 0`, else `completed`
(partial success shares the `completed` status). -/
def lrFinalStatus (st : LRState) : ActivityStatus :=
  if st.failedUnits = 0 then .completed
  else if st.completedUnits = 0 then .failed
  else .completed

/-- Normal return path of `process_large_dataset`
(`long_running.py`, lines 54-230). -/
def processLargeDataset (input : LongRunningOperationInput)
    (fails : Nat → Bool) : LongRunningOperationOutput :=
  let st := lrRun input fails
  { operationId := input.id
    status := lrFinalStatus st
    totalWorkUnits := input.totalWorkUnits
    completedWorkUnits := st.completedUnits
    failedWorkUnits := st.failedUnits }

/-- Exception return path of `process_large_dataset`
(`long_running.py`, lines 232-258): status `failed`,
`completed_work_units` frozen at its value when the exception struck, and
`failed_work_units` set to the whole `total_work_units`. -/
def processLargeDatasetOnError (input : LongRunningOperationInput)
    (completedSoFar : Nat) : LongRunningOperationOutput :=
  { operationId := input.id
    status := .failed
    totalWorkUnits := input.totalWorkUnits
    completedWorkUnits := completedSoFar
    failedWorkUnits := input.totalWorkUnits }

/-- The `validate_progress_percentage` pydantic validator of
`ProgressUpdate` (`models/workflows.py`, lines 221-230): construction is
accepted unless `abs(v - (completed/total)*100) > 0.1`.  Arithmetic is
modelled over `ℚ`; at the verified points the Python float computation and
the rational one agree exactly. -/
def validateProgressPercentage (v : ℚ) (completed total : Nat) : Bool :=
  if |v - ((completed : ℚ) / (total : ℚ)) * 100| > 1 / 10 then false
  else true

/-- Retry policy dictionary used by `send_webhook_notification`
(`activities/notifications.py`, lines 71-76 and 159-162). -/
structure WebhookRetryConfig where
  maxAttempts : Nat
  initialDelay : Nat
  maxDelay : Nat
  backoffMultiplier : Nat
deriving Repr

/-- The default retry policy dictionary of `send_webhook_notification`
(`notifications.py`, lines 71-76): `max_attempts=3, initial_delay=1,
max_delay=60, backoff_multiplier=2`; these are also the `.get` fallbacks at
lines 159-162. -/
def defaultRetryConfig : WebhookRetryConfig :=
  { maxAttempts := 3
    initialDelay := 1
    maxDelay := 60
    backoffMultiplier := 2 }

/-- What one HTTP POST attempt of the webhook loop observes: an HTTP
response (status code plus the parsed integer `Retry-After` header, `none`
when absent or unparseable), a network error, or an unexpected error. -/
inductive WebhookResponse where
  | http (status : Nat) (retryAfter : Option Nat)
  | netError (msg : String)
  | unexpectedError (msg : String)
deriving Repr

/-- Definition `delay = min(initial_delay * (backoff_multiplier ** (attempt - 1)),
max_delay)` — the exponential backoff computed at the bottom of the retry
loop (`notifications.py`, line 259). -/
def backoffDelay (cfg : WebhookRetryConfig) (attempt : Nat) : Nat :=
  min (cfg.initialDelay * cfg.backoffMultiplier ^ (attempt - 1)) cfg.maxDelay

/-- Observable outcome of `_send_webhook_with_retries`
(`notifications.py`, lines 141-273): the `success`
and `attempts` fields of the returned dictionary, the sequence of `asyncio.sleep` delays performed
between attempts, the `RateLimitError` raised on 429 exhaustion (carrying
its `retry_after_seconds`), and the final `error_message`. -/
structure SendState where
  success : Bool
  attemptsMade : Nat
  sleeps : List Nat
  raisedRateLimit : Option Nat
  errorMessage : Option String
deriving Repr

/-- The `for attempt in range(1, max_attempts + 1)` loop of
`_send_webhook_with_retries`, as a recursion on the remaining iteration
count (`fuel = max_attempts - attempt + 1`); `fuel = 0` is the fall-out of
the loop, reaching the final `return` of lines 269-273.
Branches, per the source:
* `status < 400`: return success with the current attempt count;
* `status == 429`: `retry_delay` from `Retry-After` (falling back to
  `initial_delay`); if attempts remain, sleep `min(retry_delay, max_delay)`
  and `continue` (skipping the bottom-of-loop backoff sleep), otherwise
  raise `RateLimitError`;
* other `4xx`: return failure immediately (no retry);
* `5xx` / network error / unexpected error: record `last_error`, then the
  bottom of the loop sleeps the exponential `backoffDelay` if attempts
  remain. -/
def sendLoop (cfg : WebhookRetryConfig) (resp : Nat → WebhookResponse) :
    Nat → Nat → List Nat → Option String → SendState
  | _, 0, sleeps, lastError =>
      { success := false
        attemptsMade := cfg.maxAttempts
        sleeps := sleeps
        raisedRateLimit := none
        errorMessage :=
          some (lastError.getD "Unknown error after all retry attempts") }
  | attempt, fuel + 1, sleeps, lastError =>
      match resp attempt with
      | .http status retryAfter =>
          if status < 400 then
            { success := true
              attemptsMade := attempt
              sleeps := sleeps
              raisedRateLimit := none
              errorMessage := none }
          else if status = 429 then
            let retryDelay := retryAfter.getD cfg.initialDelay
            if attempt < cfg.maxAttempts then
              sendLoop cfg resp (attempt + 1) fuel
                (sleeps ++ [min retryDelay cfg.maxDelay]) lastError
            else
              { success := false
                attemptsMade := attempt
                sleeps := sleeps
                raisedRateLimit := some retryDelay
                errorMessage := lastError }
          else if status < 500 then
            { success := false
              attemptsMade := attempt
              sleeps := sleeps
              raisedRateLimit := none
              errorMessage := some ("Client error: " ++ toString status) }
          else
            let le := some ("Server error: " ++ toString status)
            if attempt < cfg.maxAttempts then
              sendLoop cfg resp (attempt + 1) fuel
                (sleeps ++ [backoffDelay cfg attempt]) le
            else
              sendLoop cfg resp (attempt + 1) fuel sleeps le
      | .netError m =>
          let le := some ("Network error: " ++ m)
          if attempt < cfg.maxAttempts then
            sendLoop cfg resp (attempt + 1) fuel
              (sleeps ++ [backoffDelay cfg attempt]) le
          else
            sendLoop cfg resp (attempt + 1) fuel sleeps le
      | .unexpectedError m =>
          let le := some ("Unexpected error: " ++ m)
          if attempt < cfg.maxAttempts then
            sendLoop cfg resp (attempt + 1) fuel
              (sleeps ++ [backoffDelay cfg attempt]) le
          else
            sendLoop cfg resp (attempt + 1) fuel sleeps le

/-- Model of `_send_webhook_with_retries` (`notifications.py`, lines 141-273). -/
def sendWebhookWithRetries (cfg : WebhookRetryConfig)
    (resp : Nat → WebhookResponse) : SendState :=
  sendLoop cfg resp 1 cfg.maxAttempts [] none

/-- Result dictionary of `send_webhook_notification`, restricted to the
fields under verification (`notifications.py`, lines 88-97 and 130-138). -/
structure NotificationResult where
  deliveryStatus : String
  attempts : Nat
  errorMessage : Option String
deriving DecidableEq, Repr

/-- Model of `send_webhook_notification` (`notifications.py`, lines 22-138): calls
`_send_webhook_with_retries` inside a `try`; when the helper raises (the
429-exhaustion `RateLimitError`), the `except Exception` handler returns a
dictionary with `delivery_status="error"` and `attempts=0`; otherwise the
delivery status is `"success"`/`"failed"` from the helper result. -/
def sendWebhookNotification (cfg : WebhookRetryConfig)
    (resp : Nat → WebhookResponse) : NotificationResult :=
  let d := sendWebhookWithRetries cfg resp
  match d.raisedRateLimit with
  | some _ =>
      { deliveryStatus := "error"
        attempts := 0
        errorMessage := some "Webhook notification failed: rate limited" }
  | none =>
      { deliveryStatus := if d.success then "success" else "failed"
        attempts := d.attemptsMade
        errorMessage := d.errorMessage }

/-! ## Helper lemmas -/

lemma processWithSemaphore_itemId (item : DataItem) (oc : ItemOutcome) :
    (processWithSemaphore item oc).itemId = item.id := by
  cases oc <;> rfl

lemma seqLoop_length (outcomes : Nat → ItemOutcome) :
    ∀ (items : List DataItem) (i : Nat),
      (seqLoop outcomes i items).1.length = items.length := by
  intro items
  induction items with
  | nil => intro i; rfl
  | cons item rest ih =>
      intro i
      simp only [seqLoop]
      cases processSingleItem item (outcomes i) with
      | ok r =>
          by_cases hs : r.status = ActivityStatus.completed <;>
            simp [hs, ih (i + 1)]
      | error e => simp [ih (i + 1)]

lemma seqLoop_counts (outcomes : Nat → ItemOutcome) :
    ∀ (items : List DataItem) (i : Nat),
      (seqLoop outcomes i items).2.1 + (seqLoop outcomes i items).2.2 =
        items.length := by
  intro items
  induction items with
  | nil => intro i; rfl
  | cons item rest ih =>
      intro i
      have h := ih (i + 1)
      simp only [seqLoop]
      cases processSingleItem item (outcomes i) with
      | ok r =>
          by_cases hs : r.status = ActivityStatus.completed <;>
            simp only [hs, ite_true, ite_false, if_pos, if_neg,
              not_false_eq_true, List.length_cons] <;>
            omega
      | error e =>
          simp only [List.length_cons]
          omega

lemma countP_bnot_add_countP (p : Nat → Bool) (l : List Nat) :
    l.countP (fun a => !p a) + l.countP p = l.length := by
  induction l with
  | nil => rfl
  | cons a l ih =>
      simp only [List.countP_cons, List.length_cons]
      cases h : p a <;> simp [h] <;> omega

lemma seqLoop_fst_cons (outcomes : Nat → ItemOutcome) (item : DataItem)
    (rest : List DataItem) (i : Nat) :
    (seqLoop outcomes i (item :: rest)).1 =
      processWithSemaphore item (outcomes i) ::
        (seqLoop outcomes (i + 1) rest).1 := by
  simp only [seqLoop, processWithSemaphore]
  cases processSingleItem item (outcomes i) with
  | ok r => by_cases hs : r.status = ActivityStatus.completed <;> simp [hs]
  | error e => rfl

lemma seqLoop_getElem? (outcomes : Nat → ItemOutcome) :
    ∀ (items : List DataItem) (i k : Nat),
      ((seqLoop outcomes i items).1)[k]? =
        (items[k]?).map
          (fun it => processWithSemaphore it (outcomes (i + k))) := by
  intro items
  induction items with
  | nil => intro i k; simp [seqLoop]
  | cons item rest ih =>
      intro i k
      rw [seqLoop_fst_cons]
      cases k with
      | zero => simp
      | succ k =>
          have harg : i + 1 + k = i + (k + 1) := by omega
          simp only [List.getElem?_cons_succ]
          rw [ih (i + 1) k, harg]

lemma reconcileGather_gatherTasks_cons (outcomes : Nat → ItemOutcome)
    (item : DataItem) (rest : List DataItem) (i : Nat) :
    reconcileGather (item :: rest) (gatherTasks outcomes i (item :: rest)) =
      processWithSemaphore item (outcomes i) ::
        reconcileGather rest (gatherTasks outcomes (i + 1) rest) := by
  rfl

lemma reconcileGather_gatherTasks_getElem? (outcomes : Nat → ItemOutcome) :
    ∀ (items : List DataItem) (i k : Nat),
      (reconcileGather items (gatherTasks outcomes i items))[k]? =
        (items[k]?).map
          (fun it => processWithSemaphore it (outcomes (i + k))) := by
  intro items
  induction items with
  | nil => intro i k; simp [gatherTasks, reconcileGather]
  | cons item rest ih =>
      intro i k
      rw [reconcileGather_gatherTasks_cons]
      cases k with
      | zero => simp
      | succ k =>
          have harg : i + 1 + k = i + (k + 1) := by omega
          simp only [List.getElem?_cons_succ]
          rw [ih (i + 1) k, harg]

lemma reconcileGather_gatherTasks_length (outcomes : Nat → ItemOutcome) :
    ∀ (items : List DataItem) (i : Nat),
      (reconcileGather items (gatherTasks outcomes i items)).length =
        items.length := by
  intro items
  induction items with
  | nil => intro i; rfl
  | cons item rest ih =>
      intro i
      rw [reconcileGather_gatherTasks_cons]
      simp [ih (i + 1)]

lemma reconcileGather_error_getElem? :
    ∀ (items : List DataItem) (ts : List (Except String ProcessingResult))
      (k : Nat) (item : DataItem) (e : String),
      items[k]? = some item → ts[k]? = some (Except.error e) →
      (reconcileGather items ts)[k]? = some (failedResultFor item.id e) := by
  intro items
  induction items with
  | nil => intro ts k item e hitem _; simp at hitem
  | cons a rest ih =>
      intro ts k item e hitem hts
      cases ts with
      | nil => simp at hts
      | cons t ts' =>
          cases k with
          | zero =>
              simp only [List.getElem?_cons_zero, Option.some_inj] at hitem hts
              subst hitem
              subst hts
              simp [reconcileGather]
          | succ k =>
              simp only [List.getElem?_cons_succ] at hitem hts
              simp only [reconcileGather, List.getElem?_cons_succ]
              exact ih ts' k item e hitem hts

lemma lrRunDivisibleInvariant (input : LongRunningOperationInput)
    (fails : Nat → Bool) (N : Nat) (hper : 0 < workUnitsPerBatch input)
    (htot : input.totalWorkUnits = workUnitsPerBatch input * N) :
    ∀ k, k ≤ N →
      (List.range k).foldl (lrStep input fails) ⟨0, 0⟩ =
        ⟨workUnitsPerBatch input * (List.range k).countP (fun i => !fails i),
          workUnitsPerBatch input * (List.range k).countP fails⟩ := by
  intro k
  induction k with
  | zero => intro _; simp
  | succ k ih =>
      intro hk
      have hk' : k ≤ N := Nat.le_of_succ_le hk
      rw [List.range_succ, List.foldl_append, ih hk']
      have hsf :
          (List.range k).countP (fun i => !fails i) +
            (List.range k).countP fails = k := by
        rw [countP_bnot_add_countP fails (List.range k), List.length_range]
      have hsltN : (List.range k).countP (fun i => !fails i) < N := by
        have hle : (List.range k).countP (fun i => !fails i) ≤ k := by
          have := List.countP_le_length (l := List.range k)
            (p := fun i => !fails i)
          simpa [List.length_range] using this
        omega
      have hmul : workUnitsPerBatch input *
            ((List.range k).countP (fun i => !fails i) + 1) ≤
          workUnitsPerBatch input * N :=
        Nat.mul_le_mul_left _ (Nat.succ_le_of_lt hsltN)
      have hexp : workUnitsPerBatch input *
            ((List.range k).countP (fun i => !fails i) + 1) =
          workUnitsPerBatch input *
              (List.range k).countP (fun i => !fails i) +
            workUnitsPerBatch input := by ring
      have hunits :
          min (workUnitsPerBatch input)
            (input.totalWorkUnits -
              workUnitsPerBatch input *
                (List.range k).countP (fun i => !fails i)) =
          workUnitsPerBatch input := by
        apply Nat.min_eq_left
        omega
      simp only [List.foldl_cons, List.foldl_nil, lrStep, hunits]
      rw [List.countP_append, List.countP_append]
      cases hfk : fails k <;>
        simp [List.countP_cons, hfk, Nat.mul_add, Nat.mul_one]

/-! ## Claim C1 — orchestrator failure boundary -/

/-- C1 (counterexample): the claim asserts a *non-empty* error summary on
every failure path, but `_create_failed_workflow_output` sets
`error_summary = str(e)`, and the string form of a Python exception can be empty
(e.g. `raise Exception()`).  At this concrete input the orchestrator
failure output carries `error_summary = ""`. -/
theorem C1_counterexample_empty_error_summary :
    (orchestratorRun ⟨"ds", [⟨"b", [⟨"i", "x", 1⟩], 1⟩], none⟩ "wf"
        (.failure "" [])).status = WorkflowStatus.failed ∧
    (orchestratorRun ⟨"ds", [⟨"b", [⟨"i", "x", 1⟩], 1⟩], none⟩ "wf"
        (.failure "" [])).errorSummary = some "" ∧
    ¬ ∃ s, (orchestratorRun ⟨"ds", [⟨"b", [⟨"i", "x", 1⟩], 1⟩], none⟩ "wf"
        (.failure "" [])).errorSummary = some s ∧ s ≠ "" := by
  refine ⟨rfl, rfl, ?_⟩
  rintro ⟨s, hs, hne⟩
  simp only [orchestratorRun, createFailedWorkflowOutput,
    Option.some_inj] at hs
  exact hne hs.symm

/-- C1 (amended): `DataProcessingOrchestrator.run` never raises past its
boundary — the catch-all handler is total — and on any stage exception it
returns a `WorkflowOutput` with status `failed`, `successful_items = 0`,
`error_summary` equal to the exception message string (hence non-empty
exactly when that message is non-empty), `failed_items` recomputed as the
sum of all batch sizes, and `total_batches` the input batch count. -/
theorem C1_orchestrator_failure_output (input : WorkflowInput)
    (workflowId errMsg : String)
    (resultsSoFar : List BatchProcessingResult) :
    (orchestratorRun input workflowId
        (.failure errMsg resultsSoFar)).status = WorkflowStatus.failed ∧
    (orchestratorRun input workflowId
        (.failure errMsg resultsSoFar)).successfulItems = 0 ∧
    (orchestratorRun input workflowId
        (.failure errMsg resultsSoFar)).errorSummary = some errMsg ∧
    (orchestratorRun input workflowId
        (.failure errMsg resultsSoFar)).failedItems =
      (input.batches.map (fun b => b.batchSize)).sum ∧
    (orchestratorRun input workflowId
        (.failure errMsg resultsSoFar)).totalBatches =
      input.batches.length :=
  ⟨rfl, rfl, rfl, rfl, rfl⟩

/-! ## Claim C2 — BatchProcessingResult invariants -/

/-- C2 (counterexample): the failure path of `BatchProcessingWorkflow.run`
builds a `BatchProcessingResult` with `item_results = []` while
`total_items = batch_size ≥ 1`, so `len(item_results) == total_items`
fails for that producer.  The batch used here satisfies the pydantic
construction invariants. -/
theorem C2_counterexample_child_failure_empty_results :
    (⟨"b", [⟨"i", "a", 1⟩], 1⟩ : DataBatch).Wf ∧
    (batchWorkflowRun ⟨"b", [⟨"i", "a", 1⟩], 1⟩
        (.error "batch activity failed")).totalItems = 1 ∧
    (batchWorkflowRun ⟨"b", [⟨"i", "a", 1⟩], 1⟩
        (.error "batch activity failed")).itemResults.length = 0 ∧
    (batchWorkflowRun ⟨"b", [⟨"i", "a", 1⟩], 1⟩
        (.error "batch activity failed")).itemResults.length ≠
      (batchWorkflowRun ⟨"b", [⟨"i", "a", 1⟩], 1⟩
          (.error "batch activity failed")).totalItems := by
  refine ⟨by decide, rfl, rfl, by decide⟩

/-- C2 (amended): every `BatchProcessingResult` produced by the system
satisfies `successful_items + failed_items = total_items`; the sequential
and parallel executors additionally satisfy
`len(item_results) = total_items`, but the failure path of the batch child workflow
returns an *empty* `item_results` list (refuting the length equation
for that producer, see the counterexample). -/
theorem C2_batch_result_invariants :
    (∀ (batch : DataBatch) (outcomes : Nat → ItemOutcome), batch.Wf →
        (processBatchSequential batch outcomes).successfulItems +
            (processBatchSequential batch outcomes).failedItems =
          (processBatchSequential batch outcomes).totalItems ∧
        (processBatchSequential batch outcomes).itemResults.length =
          (processBatchSequential batch outcomes).totalItems) ∧
    (∀ (batch : DataBatch) (outcomes : Nat → ItemOutcome), batch.Wf →
        (processBatchParallel batch outcomes).successfulItems +
            (processBatchParallel batch outcomes).failedItems =
          (processBatchParallel batch outcomes).totalItems ∧
        (processBatchParallel batch outcomes).itemResults.length =
          (processBatchParallel batch outcomes).totalItems) ∧
    (∀ (batch : DataBatch) (errMsg : String),
        (batchWorkflowRun batch (.error errMsg)).successfulItems +
            (batchWorkflowRun batch (.error errMsg)).failedItems =
          (batchWorkflowRun batch (.error errMsg)).totalItems ∧
        (batchWorkflowRun batch (.error errMsg)).itemResults = []) := by
  refine ⟨?_, ?_, ?_⟩
  · intro batch outcomes hwf
    obtain ⟨hsize, _⟩ := hwf
    have hc := seqLoop_counts outcomes batch.items 0
    have hl := seqLoop_length outcomes batch.items 0
    constructor
    · show (seqLoop outcomes 0 batch.items).2.1 +
          (seqLoop outcomes 0 batch.items).2.2 = batch.batchSize
      omega
    · show (seqLoop outcomes 0 batch.items).1.length = batch.batchSize
      omega
  · intro batch outcomes hwf
    obtain ⟨hsize, _⟩ := hwf
    have hl := reconcileGather_gatherTasks_length outcomes batch.items 0
    have hcle := List.countP_le_length
      (l := reconcileGather batch.items (gatherTasks outcomes 0 batch.items))
      (p := fun r => decide (r.status = ActivityStatus.completed))
    constructor
    · show (reconcileGather batch.items
            (gatherTasks outcomes 0 batch.items)).countP
              (fun r => decide (r.status = ActivityStatus.completed)) +
          ((reconcileGather batch.items
              (gatherTasks outcomes 0 batch.items)).length -
            (reconcileGather batch.items
              (gatherTasks outcomes 0 batch.items)).countP
                (fun r => decide (r.status = ActivityStatus.completed))) =
          batch.batchSize
      omega
    · show (reconcileGather batch.items
          (gatherTasks outcomes 0 batch.items)).length = batch.batchSize
      omega
  · intro batch errMsg
    exact ⟨by simp [batchWorkflowRun], rfl⟩

/-- C2 (witness): the amended invariants instantiated on a concrete
well-formed one-item batch. -/
theorem C2_witness :
    (⟨"b", [⟨"i", "a", 1⟩], 1⟩ : DataBatch).Wf ∧
    ((processBatchSequential ⟨"b", [⟨"i", "a", 1⟩], 1⟩
          (fun _ => .ok)).successfulItems +
        (processBatchSequential ⟨"b", [⟨"i", "a", 1⟩], 1⟩
            (fun _ => .ok)).failedItems =
      (processBatchSequential ⟨"b", [⟨"i", "a", 1⟩], 1⟩
          (fun _ => .ok)).totalItems) ∧
    ((processBatchParallel ⟨"b", [⟨"i", "a", 1⟩], 1⟩
          (fun _ => .ok)).itemResults.length =
      (processBatchParallel ⟨"b", [⟨"i", "a", 1⟩], 1⟩
          (fun _ => .ok)).totalItems) :=
  ⟨by decide,
    (C2_batch_result_invariants.1 ⟨"b", [⟨"i", "a", 1⟩], 1⟩
      (fun _ => .ok) (by decide)).1,
    (C2_batch_result_invariants.2.1 ⟨"b", [⟨"i", "a", 1⟩], 1⟩
      (fun _ => .ok) (by decide)).2⟩

/-! ## Claim C4 — item processor error signalling -/

/-- C4 (counterexample): for an ordinary data-related failure of the
per-item transform (here `"Invalid data format"`), `process_single_item`
does *not* return a `failed` `ProcessingResult`: its catch-all handler
re-raises a `DataProcessingError`, refuting the claim that only
infrastructure faults are signalled as exceptions. -/
theorem C4_counterexample_data_error_raises :
    processSingleItem ⟨"item-1", "payload", 64⟩
        (.otherErr "Invalid data format") =
      Except.error "Item processing failed: Invalid data format" ∧
    ¬ ∃ r, processSingleItem ⟨"item-1", "payload", 64⟩
        (.otherErr "Invalid data format") = Except.ok r := by
  refine ⟨rfl, ?_⟩
  rintro ⟨r, h⟩
  simp [processSingleItem] at h

/-- C4 (amended): `process_single_item` returns a `ProcessingResult` only
on success (`completed`) or on an `asyncio.TimeoutError` (`timeout`); every
other exception — data-related or not — is wrapped in `DataProcessingError`
and raised to the caller, and the function never returns a `failed`-status
result. -/
theorem C4_item_processor_signalling (item : DataItem) :
    (∃ r, processSingleItem item .ok = Except.ok r ∧
        r.status = ActivityStatus.completed) ∧
    (∀ m, ∃ r, processSingleItem item (.timeoutErr m) = Except.ok r ∧
        r.status = ActivityStatus.timeout) ∧
    (∀ m, processSingleItem item (.otherErr m) =
        Except.error ("Item processing failed: " ++ m)) ∧
    (∀ oc r, processSingleItem item oc = Except.ok r →
        r.status ≠ ActivityStatus.failed) := by
  refine ⟨⟨_, rfl, rfl⟩, fun m => ⟨_, rfl, rfl⟩, fun m => rfl, ?_⟩
  intro oc r h
  cases oc with
  | ok => cases h; simp
  | timeoutErr m => cases h; simp
  | otherErr m => simp [processSingleItem] at h

/-- C4 (witness): the never-`failed` conclusion evaluated at a concrete
item on the success path. -/
theorem C4_witness :
    ({ itemId := "item-1", status := ActivityStatus.completed,
        processedContent := some ("payload".toUpper),
        errorMessage := none } : ProcessingResult).status ≠
      ActivityStatus.failed :=
  (C4_item_processor_signalling ⟨"item-1", "payload", 64⟩).2.2.2
    ItemOutcome.ok _ rfl

/-! ## Claim C5 — long-running final status -/

/-- C5 (confirmed): on the normal return path of `process_large_dataset`,
the status is `completed` when `failed_work_units = 0`, `failed` exactly
when some units failed and none completed, and `completed` whenever any
unit completed — partial success is not a distinct terminal status. -/
theorem C5_long_running_final_status (input : LongRunningOperationInput)
    (fails : Nat → Bool) :
    ((processLargeDataset input fails).failedWorkUnits = 0 →
        (processLargeDataset input fails).status =
          ActivityStatus.completed) ∧
    ((processLargeDataset input fails).status = ActivityStatus.failed ↔
        0 < (processLargeDataset input fails).failedWorkUnits ∧
          (processLargeDataset input fails).completedWorkUnits = 0) ∧
    (0 < (processLargeDataset input fails).completedWorkUnits →
        (processLargeDataset input fails).status =
          ActivityStatus.completed) := by
  simp only [processLargeDataset, lrFinalStatus]
  by_cases hf : (lrRun input fails).failedUnits = 0 <;>
    by_cases hc : (lrRun input fails).completedUnits = 0
  all_goals simp [hf, hc]
  all_goals omega

/-- C5 (witness): the status laws evaluated on concrete runs — one with no
faulting batch (`completed`), one with a faulting first batch but a
completed second batch (still `completed`). -/
theorem C5_witness :
    (processLargeDataset ⟨"op", "transform", 100, 50⟩
        (fun _ => false)).status = ActivityStatus.completed ∧
    (processLargeDataset ⟨"op", "transform", 100, 50⟩
        (fun i => i = 0)).status = ActivityStatus.completed :=
  ⟨(C5_long_running_final_status ⟨"op", "transform", 100, 50⟩
        (fun _ => false)).1 (by decide),
    (C5_long_running_final_status ⟨"op", "transform", 100, 50⟩
        (fun i => i = 0)).2.2 (by decide)⟩

/-! ## Claim C6 — scenario C: 10000 units in batches of 1000 -/

/-- C6 (confirmed): with `total_work_units = 10000` and
`work_unit_size = 1000`, `process_large_dataset` runs exactly 10 internal
batches, and when exactly 2 of them fault the output has
`failed_work_units = 2000` and `completed_work_units = 8000`. -/
theorem C6_scenario_ten_batches (input : LongRunningOperationInput)
    (fails : Nat → Bool) (h1 : input.totalWorkUnits = 10000)
    (h2 : input.workUnitSize = 1000)
    (h3 : (List.range 10).countP fails = 2) :
    totalBatches input = 10 ∧
    (processLargeDataset input fails).failedWorkUnits = 2000 ∧
    (processLargeDataset input fails).completedWorkUnits = 8000 := by
  have hper : workUnitsPerBatch input = 1000 := by
    simp [workUnitsPerBatch, h2]
  have hB : totalBatches input = 10 := by
    simp [totalBatches, hper, h1]
  have hrun := lrRunDivisibleInvariant input fails 10
    (by omega) (by rw [hper, h1]) 10 le_rfl
  have hcount : (List.range 10).countP (fun i => !fails i) = 8 := by
    have h := countP_bnot_add_countP fails (List.range 10)
    rw [List.length_range] at h
    omega
  refine ⟨hB, ?_, ?_⟩ <;>
    simp [processLargeDataset, lrRun, hB, hrun, hper, hcount, h3]

/-- C6 (witness): the scenario instantiated with the first two batches
faulting. -/
theorem C6_witness :
    ((⟨"op", "post", 10000, 1000⟩ :
        LongRunningOperationInput).totalWorkUnits = 10000) ∧
    ((⟨"op", "post", 10000, 1000⟩ :
        LongRunningOperationInput).workUnitSize = 1000) ∧
    ((List.range 10).countP (fun i => i < 2) = 2) ∧
    (totalBatches ⟨"op", "post", 10000, 1000⟩ = 10 ∧
      (processLargeDataset ⟨"op", "post", 10000, 1000⟩
          (fun i => i < 2)).failedWorkUnits = 2000 ∧
      (processLargeDataset ⟨"op", "post", 10000, 1000⟩
          (fun i => i < 2)).completedWorkUnits = 8000) :=
  ⟨rfl, rfl, by decide,
    C6_scenario_ten_batches ⟨"op", "post", 10000, 1000⟩
      (fun i => i < 2) rfl rfl (by decide)⟩

/-! ## Claim C7 — webhook 429 retry behaviour -/

/-- C7 (counterexample): when the 429 responses carry no `Retry-After`
header, the code sleeps the flat `initial_delay` before every retry
(`retry_delay = initial_delay`, line 198 of `notifications.py`), *not* the
computed exponential backoff the claim describes: before attempt 3 it
sleeps 1 second while the exponential backoff would be 2. -/
theorem C7_counterexample_flat_fallback :
    (sendWebhookWithRetries defaultRetryConfig
        (fun _ => .http 429 none)).sleeps = [1, 1] ∧
    backoffDelay defaultRetryConfig 2 = 2 ∧
    ((sendWebhookWithRetries defaultRetryConfig
        (fun _ => .http 429 none)).sleeps)[1]? ≠
      some (backoffDelay defaultRetryConfig 2) := by
  refine ⟨rfl, rfl, by decide⟩

/-- C7 (amended): against an endpoint answering 429 with `Retry-After: 5`
on every attempt, under the default policy (`max_attempts = 3`) the
dispatcher performs exactly 3 HTTP attempts, sleeps 5 seconds (≥ 5)
between consecutive attempts, ends in a terminal `RateLimitError` from the
retry helper, and `send_webhook_notification` returns a delivery result
that does not report success; when the header is absent the 429 path falls
back to the flat `initial_delay` (not the exponential backoff). -/
theorem C7_rate_limit_retry_behaviour :
    (sendWebhookWithRetries defaultRetryConfig
        (fun _ => .http 429 (some 5))).attemptsMade = 3 ∧
    (sendWebhookWithRetries defaultRetryConfig
        (fun _ => .http 429 (some 5))).sleeps = [5, 5] ∧
    (∀ s ∈ (sendWebhookWithRetries defaultRetryConfig
        (fun _ => .http 429 (some 5))).sleeps, 5 ≤ s) ∧
    (sendWebhookWithRetries defaultRetryConfig
        (fun _ => .http 429 (some 5))).raisedRateLimit = some 5 ∧
    (sendWebhookNotification defaultRetryConfig
        (fun _ => .http 429 (some 5))).deliveryStatus ≠ "success" ∧
    (sendWebhookWithRetries defaultRetryConfig
        (fun _ => .http 429 none)).sleeps =
      [defaultRetryConfig.initialDelay, defaultRetryConfig.initialDelay] := by
  refine ⟨rfl, rfl, by decide, rfl, by decide, rfl⟩

/-! ## Claim C8 — index alignment of batch results -/

/-- C8 (confirmed): for every batch and every index, the `item_results`
list produced by the batch executor is index-aligned with the input items
(`item_results[i].item_id = items[i].id`), in sequential mode (where the
loop visits items in input order) and in parallel mode (where
`asyncio.gather` preserves the input order of the task list regardless of
completion order). -/
theorem C8_index_alignment (batch : DataBatch)
    (outcomes : Nat → ItemOutcome) (k : Nat) :
    ((processBatchSequential batch outcomes).itemResults[k]?).map
        (fun r => r.itemId) =
      (batch.items[k]?).map (fun it => it.id) ∧
    ((processBatchParallel batch outcomes).itemResults[k]?).map
        (fun r => r.itemId) =
      (batch.items[k]?).map (fun it => it.id) := by
  constructor
  · show (((seqLoop outcomes 0 batch.items).1)[k]?).map
        (fun r => r.itemId) = (batch.items[k]?).map (fun it => it.id)
    rw [seqLoop_getElem? outcomes batch.items 0 k]
    cases batch.items[k]? with
    | none => rfl
    | some it => simp [processWithSemaphore_itemId]
  · show ((reconcileGather batch.items
          (gatherTasks outcomes 0 batch.items))[k]?).map
        (fun r => r.itemId) = (batch.items[k]?).map (fun it => it.id)
    rw [reconcileGather_gatherTasks_getElem? outcomes batch.items 0 k]
    cases batch.items[k]? with
    | none => rfl
    | some it => simp [processWithSemaphore_itemId]

/-! ## Claim C3 — parallel fault isolation -/

/-- C3 (confirmed): in a 5-item parallel batch where the transform of exactly one item
raises an unexpected fault, `process_batch_parallel` returns
(rather than raises) a result with `successful_items = 4` and
`failed_items = 1`; and in the post-`gather` reconciliation, every
task-level exception becomes a `failed` `ProcessingResult` at its index
instead of escaping the batch call. -/
theorem C3_parallel_fault_isolation :
    (∀ (bid : String) (a b c d e : DataItem) (j : Fin 5) (m : String),
        (processBatchParallel ⟨bid, [a, b, c, d, e], 5⟩
            (fun i => if i = (j : Nat) then .otherErr m
              else .ok)).successfulItems = 4 ∧
        (processBatchParallel ⟨bid, [a, b, c, d, e], 5⟩
            (fun i => if i = (j : Nat) then .otherErr m
              else .ok)).failedItems = 1) ∧
    (∀ (items : List DataItem) (ts : List (Except String ProcessingResult))
        (k : Nat) (item : DataItem) (e : String),
        items[k]? = some item → ts[k]? = some (Except.error e) →
        ∃ r, (reconcileGather items ts)[k]? = some r ∧
          r.status = ActivityStatus.failed) := by
  constructor
  · intro bid a b c d e j m
    fin_cases j <;>
      constructor <;>
        simp [processBatchParallel, gatherTasks, reconcileGather,
          processWithSemaphore, processSingleItem, failedResultFor,
          List.countP_cons, List.countP_nil]
  · intro items ts k item e hitem hts
    exact ⟨failedResultFor item.id e,
      reconcileGather_error_getElem? items ts k item e hitem hts, rfl⟩

/-- C3 (witness): the scenario at a concrete 5-item batch with item index 2
faulting, and the reconciliation fact at a concrete task list containing an
exception. -/
theorem C3_witness :
    ((processBatchParallel
        ⟨"b", [⟨"i0", "a", 1⟩, ⟨"i1", "b", 1⟩, ⟨"i2", "c", 1⟩,
          ⟨"i3", "d", 1⟩, ⟨"i4", "e", 1⟩], 5⟩
        (fun i => if i = ((2 : Fin 5) : Nat) then .otherErr "boom"
          else .ok)).successfulItems = 4) ∧
    (∃ r, (reconcileGather [⟨"ix", "c", 1⟩]
        [Except.error "task exploded"])[0]? = some r ∧
      r.status = ActivityStatus.failed) :=
  ⟨(C3_parallel_fault_isolation.1 "b" ⟨"i0", "a", 1⟩ ⟨"i1", "b", 1⟩
      ⟨"i2", "c", 1⟩ ⟨"i3", "d", 1⟩ ⟨"i4", "e", 1⟩ (2 : Fin 5) "boom").1,
    C3_parallel_fault_isolation.2 [⟨"ix", "c", 1⟩]
      [Except.error "task exploded"] 0 ⟨"ix", "c", 1⟩ "task exploded"
      rfl rfl⟩

/-! ## Claim C9 — progress percentage tolerance -/

/-- C9 (counterexample): the validator accepts a deviation of exactly 0.1
(`abs(v - expected) > 0.1` is the rejection test), so a `ProgressUpdate`
with `completed = 0`, `total = 1`, `progress_percentage = 0.1` is accepted
although `|0.1 - 0| < 0.1` is false — the *strict* bound of the claim fails. -/
theorem C9_counterexample_boundary :
    validateProgressPercentage (1 / 10) 0 1 = true ∧
    ¬ (|(1 / 10 : ℚ) - ((0 : ℚ) / (1 : ℚ)) * 100| < 1 / 10) := by
  have habs : |(1 / 10 : ℚ)| = 1 / 10 :=
    abs_of_nonneg (by norm_num)
  constructor
  · norm_num [validateProgressPercentage, habs]
  · norm_num [habs]

/-- C9 (amended): a `ProgressUpdate` construction is accepted exactly when
`|progress_percentage - 100 * completed / total| ≤ 0.1` (non-strict
tolerance); beyond the tolerance the validator rejects. -/
theorem C9_progress_tolerance (v : ℚ) (completed total : Nat)
    (_htotal : 0 < total) :
    validateProgressPercentage v completed total = true ↔
      |v - ((completed : ℚ) / (total : ℚ)) * 100| ≤ 1 / 10 := by
  unfold validateProgressPercentage
  split_ifs with h
  · constructor
    · intro hcon
      exact absurd hcon (by decide)
    · intro hle
      exact absurd h (not_lt_of_le hle)
  · constructor
    · intro _
      exact le_of_not_lt h
    · intro _
      rfl

/-- C9 (witness): the amended equivalence evaluated at an exact
50-percent progress point. -/
theorem C9_witness :
    (0 : Nat) < 2 ∧ validateProgressPercentage 50 1 2 = true :=
  ⟨by decide,
    (C9_progress_tolerance 50 1 2 (by decide)).mpr (by norm_num)⟩

/-! ## Claim C10 — work-unit conservation -/

/-- C10 (counterexample): `units_in_batch = min(work_units_per_batch,
total_work_units - completed_units)` subtracts only *completed* units, so
with `total_work_units = 1500`, `work_unit_size = 1000` and the first
batch faulting, the second batch still processes 1000 units:
`completed + failed = 1000 + 1000 = 2000 ≠ 1500`. -/
theorem C10_counterexample_overcount :
    (processLargeDataset ⟨"op", "t", 1500, 1000⟩
          (fun i => i = 0)).completedWorkUnits +
        (processLargeDataset ⟨"op", "t", 1500, 1000⟩
            (fun i => i = 0)).failedWorkUnits = 2000 ∧
    (processLargeDataset ⟨"op", "t", 1500, 1000⟩
        (fun i => i = 0)).totalWorkUnits = 1500 ∧
    (2000 : Nat) ≠ 1500 := by
  refine ⟨by decide, rfl, by decide⟩

/-- C10 (amended): on the normal return path,
`completed_work_units + failed_work_units = total_work_units` holds
whenever the per-batch unit count `min(work_unit_size, 1000)` divides
`total_work_units` (for arbitrary failure patterns); on the exception
return path `failed_work_units` is set to the whole `total_work_units`, so
the sum equals the total exactly when no units had completed. -/
theorem C10_work_unit_conservation :
    (∀ (input : LongRunningOperationInput) (fails : Nat → Bool),
        0 < input.workUnitSize →
        workUnitsPerBatch input ∣ input.totalWorkUnits →
        (processLargeDataset input fails).completedWorkUnits +
            (processLargeDataset input fails).failedWorkUnits =
          input.totalWorkUnits) ∧
    (∀ (input : LongRunningOperationInput) (completedSoFar : Nat),
        (processLargeDatasetOnError input completedSoFar).failedWorkUnits =
          input.totalWorkUnits ∧
        ((processLargeDatasetOnError input
              completedSoFar).completedWorkUnits +
            (processLargeDatasetOnError input
                completedSoFar).failedWorkUnits =
          input.totalWorkUnits ↔ completedSoFar = 0)) := by
  constructor
  · intro input fails hsize hdvd
    obtain ⟨N, hN⟩ := hdvd
    have hper : 0 < workUnitsPerBatch input :=
      lt_min hsize (by norm_num)
    have hB : totalBatches input = N := by
      unfold totalBatches
      rw [hN]
      have hrw : workUnitsPerBatch input * N + workUnitsPerBatch input - 1 =
          workUnitsPerBatch input * N + (workUnitsPerBatch input - 1) := by
        omega
      rw [hrw, Nat.mul_add_div hper,
        Nat.div_eq_of_lt (by omega : workUnitsPerBatch input - 1 <
          workUnitsPerBatch input)]
      omega
    have hrun := lrRunDivisibleInvariant input fails N hper hN N le_rfl
    have hsf := countP_bnot_add_countP fails (List.range N)
    rw [List.length_range] at hsf
    show (lrRun input fails).completedUnits +
        (lrRun input fails).failedUnits = input.totalWorkUnits
    rw [lrRun, hB, hrun]
    simp only
    rw [hN, ← Nat.mul_add]
    exact congrArg _ hsf
  · intro input completedSoFar
    refine ⟨rfl, ?_⟩
    show completedSoFar + input.totalWorkUnits =
        input.totalWorkUnits ↔ completedSoFar = 0
    omega

/-- C10 (witness): the divisible-case conservation law evaluated on a
10000-unit operation with 1000-unit batches and one faulting batch. -/
theorem C10_witness :
    (0 : Nat) < (⟨"op", "t", 10000, 1000⟩ :
        LongRunningOperationInput).workUnitSize ∧
    workUnitsPerBatch ⟨"op", "t", 10000, 1000⟩ ∣ 10000 ∧
    (processLargeDataset ⟨"op", "t", 10000, 1000⟩
          (fun i => i = 0)).completedWorkUnits +
        (processLargeDataset ⟨"op", "t", 10000, 1000⟩
            (fun i => i = 0)).failedWorkUnits = 10000 :=
  ⟨by decide, ⟨10, by decide⟩,
    C10_work_unit_conservation.1 ⟨"op", "t", 10000, 1000⟩
      (fun i => i = 0) (by decide) ⟨10, by decide⟩⟩

end TemporalPlatform
